import Mathlib

/-!
Verification of the core logic of `movie-recommender.py`: the query
interpreter (`gpt_parse_prompt`), the discovery engine (`discover_movies`),
the fallback relaxation chain in the recommend-button handler, and the
manual/parsed filter merge block.

Modelling conventions:
* Python floats (scores, popularity) are modelled as rationals `ℚ`; the
  program only compares them, never does float-specific arithmetic.
* Python `None` is `Option.none`; code that can raise returns `Except String`.
* Python dicts built by `json.loads` are modelled by the inductive `Json`;
  `dict.get` is `pyGet` (a JSON `null` value and a missing key both read back
  as Python `None`, exactly as `json.loads` maps `null` to `None`).
* Python strings are manipulated as `List Char` (`String.data`), with the
  string helpers below mirroring `str.strip` / `str.split` / `int(...)`.
-/

/-- Whitespace for Python `str.strip()` / JSON (space, newline, tab, CR). -/
def isPyWs (c : Char) : Bool := c = ' ' || c = '\n' || c = '\t' || c = '\r'

/-- Python `str.strip()` on a character list. -/
def pyStrip (s : List Char) : List Char :=
  ((s.dropWhile isPyWs).reverse.dropWhile isPyWs).reverse

/-- If `sep` is a leading run of `s`, return the remainder of `s`. -/
def dropPre? : List Char → List Char → Option (List Char)
  | [], s => some s
  | _ :: _, [] => none
  | a :: as, b :: bs => if a = b then dropPre? as bs else none

/-- Python `sep in s` for a nonempty separator. -/
def containsSeq (sep : List Char) : List Char → Bool
  | [] => (dropPre? sep []).isSome
  | c :: cs => (dropPre? sep (c :: cs)).isSome || containsSeq sep cs

/-- Python `s.split(sep)[0]`: the text before the first occurrence of `sep`
(the whole of `s` when `sep` does not occur). -/
def beforeFirst (sep : List Char) : List Char → List Char
  | [] => []
  | c :: cs =>
    match dropPre? sep (c :: cs) with
    | some _ => []
    | none => c :: beforeFirst sep cs

/-- Helper for `afterLastMarker`: `cur` is the text after the last separator
occurrence seen so far.  Faithful to Python `split` for separators (such as
the two used in the source) that cannot overlap themselves. -/
def afterLastAux (sep : List Char) (cur : List Char) : List Char → List Char
  | [] => cur
  | c :: cs =>
    match dropPre? sep (c :: cs) with
    | some rest => afterLastAux sep rest cs
    | none => afterLastAux sep cur cs

/-- Python `s.split(sep)[-1]`: the text after the last occurrence of `sep`
(the whole of `s` when `sep` does not occur). -/
def afterLastMarker (sep s : List Char) : List Char := afterLastAux sep s s

/-- Decimal digits to a natural number. -/
def natOfDigits (ds : List Char) : Nat :=
  ds.foldl (fun a c => a * 10 + (c.toNat - 48)) 0

/-- Python `int(s)` on a string: optional surrounding whitespace, optional
sign, at least one digit, nothing else; `none` models a raised `ValueError`. -/
def pyInt (cs : List Char) : Option Int :=
  match pyStrip cs with
  | '-' :: ds =>
    if ds.isEmpty then none
    else if ds.all Char.isDigit then some (-(natOfDigits ds : Int)) else none
  | '+' :: ds =>
    if ds.isEmpty then none
    else if ds.all Char.isDigit then some (natOfDigits ds : Int) else none
  | ds =>
    if ds.isEmpty then none
    else if ds.all Char.isDigit then some (natOfDigits ds : Int) else none

/-- JSON values as produced by `json.loads`. -/
inductive Json where
  | null : Json
  | bool (b : Bool) : Json
  | num (q : ℚ) : Json
  | str (s : String) : Json
  | arr (elems : List Json) : Json
  | obj (fields : List (String × Json)) : Json

/-- Skip JSON whitespace. -/
def skipWs : List Char → List Char
  | [] => []
  | c :: cs => if isPyWs c then skipWs cs else c :: cs

/-- Parse a JSON string body after the opening quote.  The escapes used by
the program's payloads are supported; an unsupported escape is a parse
failure, as in `json.loads`. -/
def parseStr : List Char → Option (String × List Char)
  | [] => none
  | '"' :: cs => some ("", cs)
  | '\\' :: [] => none
  | '\\' :: e :: cs =>
    let esc : Option Char :=
      if e = '"' then some '"'
      else if e = '\\' then some '\\'
      else if e = '/' then some '/'
      else if e = 'n' then some '\n'
      else if e = 't' then some '\t'
      else if e = 'r' then some '\r'
      else none
    match esc with
    | none => none
    | some c => (parseStr cs).map (fun p => (⟨c :: p.1.data⟩, p.2))
  | c :: cs => (parseStr cs).map (fun p => (⟨c :: p.1.data⟩, p.2))

/-- Parse a JSON number (optional minus, digits, optional fraction). -/
def parseNum (cs : List Char) : Option (ℚ × List Char) :=
  let signAndRest : ℚ × List Char :=
    match cs with
    | '-' :: t => (-1, t)
    | _ => (1, cs)
  let sign := signAndRest.1
  let cs1 := signAndRest.2
  let ds := cs1.takeWhile Char.isDigit
  let rest := cs1.dropWhile Char.isDigit
  if ds.isEmpty then none
  else
    match rest with
    | '.' :: t =>
      let fs := t.takeWhile Char.isDigit
      let rest2 := t.dropWhile Char.isDigit
      if fs.isEmpty then none
      else some (sign * ((natOfDigits ds : ℚ) + (natOfDigits fs : ℚ) / (10 : ℚ) ^ fs.length), rest2)
    | _ => some (sign * (natOfDigits ds : ℚ), rest)

mutual

/-- Fuel-indexed recursive-descent JSON value parser. -/
def parseVal : Nat → List Char → Option (Json × List Char)
  | 0, _ => none
  | fuel + 1, cs =>
    match skipWs cs with
    | [] => none
    | c :: cs' =>
      if c = 'n' then
        match cs' with
        | 'u' :: 'l' :: 'l' :: t => some (Json.null, t)
        | _ => none
      else if c = 't' then
        match cs' with
        | 'r' :: 'u' :: 'e' :: t => some (Json.bool true, t)
        | _ => none
      else if c = 'f' then
        match cs' with
        | 'a' :: 'l' :: 's' :: 'e' :: t => some (Json.bool false, t)
        | _ => none
      else if c = '"' then
        (parseStr cs').map (fun p => (Json.str p.1, p.2))
      else if c = '[' then
        match skipWs cs' with
        | ']' :: t => some (Json.arr [], t)
        | _ => (parseElems fuel cs').map (fun p => (Json.arr p.1, p.2))
      else if c = '\x7b' then
        match skipWs cs' with
        | '\x7d' :: t => some (Json.obj [], t)
        | _ => (parseMembers fuel cs').map (fun p => (Json.obj p.1, p.2))
      else if c.isDigit || c = '-' then
        (parseNum (c :: cs')).map (fun p => (Json.num p.1, p.2))
      else none

/-- Parse `value (, value)* ]` inside an array. -/
def parseElems : Nat → List Char → Option (List Json × List Char)
  | 0, _ => none
  | fuel + 1, cs =>
    match parseVal fuel cs with
    | none => none
    | some (v, rest) =>
      match skipWs rest with
      | ',' :: t => (parseElems fuel t).map (fun p => (v :: p.1, p.2))
      | ']' :: t => some ([v], t)
      | _ => none

/-- Parse `"key": value (, "key": value)* }` inside an object. -/
def parseMembers : Nat → List Char → Option (List (String × Json) × List Char)
  | 0, _ => none
  | fuel + 1, cs =>
    match skipWs cs with
    | '"' :: t =>
      match parseStr t with
      | none => none
      | some (k, r1) =>
        match skipWs r1 with
        | ':' :: r2 =>
          match parseVal fuel r2 with
          | none => none
          | some (v, r3) =>
            match skipWs r3 with
            | ',' :: r4 => (parseMembers fuel r4).map (fun p => ((k, v) :: p.1, p.2))
            | '\x7d' :: r4 => some ([(k, v)], r4)
            | _ => none
        | _ => none
    | _ => none

end

/-- Python `json.loads`: a single JSON value with nothing but whitespace
around it; `none` models a raised `JSONDecodeError`. -/
def jsonParse (s : String) : Option Json :=
  match parseVal (2 * s.length + 2) s.data with
  | some (v, rest) => if skipWs rest = [] then some v else none
  | none => none

/-- Python `parsed.get(k)` on the result of `json.loads`: `none` models both
a missing key and a stored JSON `null` (both read back as Python `None`). -/
def pyGet (j : Json) (k : String) : Option Json :=
  match j with
  | Json.obj kvs =>
    match kvs.lookup k with
    | none => none
    | some Json.null => none
    | some v => some v
  | _ => none

/-- Python truthiness of a decoded JSON value. -/
def jTruthy : Json → Bool
  | Json.null => false
  | Json.bool b => b
  | Json.num q => q != 0
  | Json.str s => s != ""
  | Json.arr xs => !xs.isEmpty
  | Json.obj kvs => !kvs.isEmpty

/-- Python truthiness of an optional value (`None` is falsy). -/
def jTruthyO : Option Json → Bool
  | none => false
  | some v => jTruthy v

/-! ## Query Interpreter (`gpt_parse_prompt`, lines 32-70) -/

/-- The `` ```json `` marker the source splits on. -/
def mJson : List Char := "```json".data

/-- The closing-fence marker the source splits on. -/
def mTicks : List Char := "```".data

/-- Line 66:
`text.strip().split("```json")[-1].split("```")[0] if "```json" in text else text`. -/
def extractJsonText (text : String) : String :=
  if containsSeq mJson text.data then
    ⟨beforeFirst mTicks (afterLastMarker mJson (pyStrip text.data))⟩
  else text

/-- Line 65, `result["content"][0]["text"]`: any shape mismatch (missing key,
non-list `content`, empty list, non-string `text`) raises inside the `try`,
modelled by `none`. -/
def textOfResult : Json → Option String
  | Json.obj kvs =>
    match kvs.lookup "content" with
    | some (Json.arr (first :: _)) =>
      match first with
      | Json.obj kvs2 =>
        match kvs2.lookup "text" with
        | some (Json.str t) => some t
        | _ => none
      | _ => none
    | _ => none
  | _ => none

/-- Lines 66-67 applied to the model's text output: extract the candidate
JSON text and run `json.loads` on it. -/
def parseModelText (t : String) : Option Json := jsonParse (extractJsonText t)

/-- The whole `try` body of lines 64-67: `none` means some step raised and
control reaches the bare `except`. -/
def extractFilters (result : Json) : Option Json :=
  match textOfResult result with
  | some t => parseModelText t
  | none => none

/-- `gpt_parse_prompt`, lines 57-70, as a function of the provider
interaction.  The input models `bedrock.invoke_model` + `response["body"].read()`:
`Except.error` is a provider exception, `Except.ok body` a returned payload.
The result pairs the returned value with a flag recording whether the
`st.error` warning was shown.  Line 63's `json.loads(response["body"].read())`
sits OUTSIDE the `try`, so a provider error or an unparsable payload
propagates; only failures inside the `try` produce `({}, warning)`. -/
def gpt_parse_prompt (resp : Except String String) : Except String (Json × Bool) :=
  match resp with
  | Except.error e => Except.error e
  | Except.ok body =>
    match jsonParse body with
    | none => Except.error "JSONDecodeError"
    | some result =>
      match extractFilters result with
      | some v => Except.ok (v, false)
      | none => Except.ok (Json.obj [], true)

/-! ## Data model -/

/-- A provider result record (`Movie`).  Optional fields model missing keys;
`genre_ids` models `m.get("genre_ids", [])` (a missing key is the empty
list); floats are rationals. -/
structure Movie where
  id : Nat
  title : String
  release_date : Option String
  vote_average : Option ℚ
  genre_ids : List Int
  popularity : Option ℚ
deriving DecidableEq, Repr

/-- The keyword arguments of `discover_movies` (line 78).  Defaults follow
the Python signature. -/
structure FilterSet where
  genres : List String := []
  year_start : Option Int := none
  year_end : Option Int := none
  min_score : Option ℚ := none
  certification : Option String := none
  min_runtime : Option Int := none
  max_runtime : Option Int := none
  include_adult : Bool := false
deriving DecidableEq, Repr

/-- The genre list returned by the provider, in provider order; the code
turns it into the dicts `{name: id}` and `{id: name}`. -/
def GenreCatalog := List (String × Int)

/-- The `genre_id_map` dict lookup (`get_genre_ids()[g]` / `g in map`);
genre names are unique per the provider contract, so association-list
lookup models the dict. -/
def nameToId (c : GenreCatalog) (n : String) : Option Int :=
  (c : List (String × Int)).lookup n

/-- The `reverse_genre_map` dict lookup (line 106). -/
def idToName (c : GenreCatalog) (i : Int) : Option String :=
  ((c : List (String × Int)).map (fun p => (p.2, p.1))).lookup i

/-! ## Discovery Engine (`discover_movies`, lines 78-113) -/

/-- Line 81: `[genre_id_map[g] for g in genres if g in genre_id_map]`
(the ids; `str()` is just serialization). -/
def resolveGenreIds (c : GenreCatalog) (genres : List String) : List Int :=
  genres.filterMap (fun g => nameToId c g)

/-- The `base_params` dict of lines 83-94.  A `none` field is a `None`
value, which the comprehension on line 99 strips before the request; a
`some` field is a parameter actually sent to the provider (the per-page
`page` parameter is added by the fetch loop). -/
structure BaseParams where
  api_key : Option String
  language : Option String
  sort_by : Option String
  include_adult : Option Bool
  with_genres : Option (List Int)
  vote_average_gte : Option ℚ
  certification_country : Option String
  certification_lte : Option String
  with_runtime_gte : Option Int
  with_runtime_lte : Option Int
deriving DecidableEq, Repr

/-- Lines 83-94 (`apiKey` models `os.getenv("TMDB_API_KEY")`). -/
def buildParams (apiKey : Option String) (c : GenreCatalog) (f : FilterSet) : BaseParams :=
  let gids := resolveGenreIds c f.genres
  { api_key := apiKey
    language := some "en-US"
    sort_by := some "popularity.desc"
    include_adult := some f.include_adult
    with_genres := if gids.isEmpty then none else some gids
    vote_average_gte := f.min_score
    certification_country := some "US"
    certification_lte := f.certification
    with_runtime_gte := f.min_runtime
    with_runtime_lte := f.max_runtime }

/-- Lines 96-100: pages 1..5 in order, concatenating `results`; the loop
body has no exception handler, so a failing fetch propagates out of
`discover_movies` (`Except` bind aborts the fold). -/
def fetchPages (fetch : Nat → Except String (List Movie)) : Except String (List Movie) :=
  [1, 2, 3, 4, 5].foldlM (fun acc p => (fetch p).map (fun r => acc ++ r)) []

/-- Python truthiness of an optional year (line 102 `if year_start and year_end`). -/
def yTruthy : Option Int → Bool
  | none => false
  | some y => y != 0

/-- One evaluation of the line-103 comprehension condition for a movie:
`m.get("release_date", "") and year_start <= int(m["release_date"][:4]) <= year_end`.
An empty/missing date short-circuits to `False`; a non-empty date whose
first four characters do not form an integer makes `int` raise. -/
def movieYearCheck (a b : Int) (m : Movie) : Except String Bool :=
  let rd := m.release_date.getD ""
  if rd = "" then Except.ok false
  else
    match pyInt (rd.data.take 4) with
    | none => Except.error "ValueError"
    | some y => Except.ok (decide (a ≤ y ∧ y ≤ b))

/-- A list comprehension with a condition that can raise: elements are
tested left to right and the first raise aborts. -/
def filterE (p : Movie → Except String Bool) : List Movie → Except String (List Movie)
  | [] => Except.ok []
  | m :: ms => do
    let b ← p m
    let rest ← filterE p ms
    pure (if b then m :: rest else rest)

/-- Lines 102-103, the year post-filter. -/
def yearFilter (ys ye : Option Int) (ms : List Movie) : Except String (List Movie) :=
  if yTruthy ys && yTruthy ye then
    filterE (movieYearCheck (ys.getD 0) (ye.getD 0)) ms
  else Except.ok ms

/-- Line 109's inner list: `[reverse_genre_map.get(id) for id in m.get("genre_ids", [])]`. -/
def movieGenreNames (c : GenreCatalog) (m : Movie) : List (Option String) :=
  m.genre_ids.map (fun i => idToName c i)

/-- Lines 105-110, the genre post-filter: when any genres were requested,
keep movies for which some requested name appears among the reverse-mapped
names of the movie's genre ids. -/
def genreFilter (c : GenreCatalog) (genres : List String) (ms : List Movie) : List Movie :=
  if genres.isEmpty then ms
  else ms.filter (fun m => genres.any (fun g => (movieGenreNames c m).contains (some g)))

/-- `m.get("popularity", 0)` (line 112). -/
def popKey (m : Movie) : ℚ := m.popularity.getD 0

/-- Stable descending insertion: an element is placed before the first
element whose key is not larger.  `foldr insertPop []` computes the same
function as Python's stable `list.sort(key=..., reverse=True)`. -/
def insertPop (x : Movie) : List Movie → List Movie
  | [] => [x]
  | y :: ys => if popKey y > popKey x then y :: insertPop x ys else x :: y :: ys

/-- Line 112: `results.sort(key=lambda m: m.get("popularity", 0), reverse=True)`. -/
def sortByPopularity (l : List Movie) : List Movie := l.foldr insertPop []

/-- `discover_movies` (lines 78-113) over an abstract per-page provider
fetch (`requests.get` + `.json().get("results", [])`). -/
def discover_movies (apiKey : Option String) (c : GenreCatalog)
    (fetch : BaseParams → Nat → Except String (List Movie)) (f : FilterSet) :
    Except String (List Movie) := do
  let params := buildParams apiKey c f
  let fetched ← fetchPages (fetch params)
  let afterYear ← yearFilter f.year_start f.year_end fetched
  let afterGenre := genreFilter c f.genres afterYear
  pure (sortByPopularity afterGenre)

/-! ## Manual-filter UI and merge block (lines 133-168) -/

/-- The decade table of lines 137-145, read with `.get(decade, (None, None))`. -/
def decadeRange (d : String) : Option Int × Option Int :=
  if d = "1970s" then (some 1970, some 1979)
  else if d = "1980s" then (some 1980, some 1989)
  else if d = "1990s" then (some 1990, some 1999)
  else if d = "2000s" then (some 2000, some 2009)
  else if d = "2010s" then (some 2010, some 2019)
  else if d = "2020s" then (some 2020, some 2025)
  else (none, none)

/-- An integer as a decoded JSON number. -/
def jNum (n : Int) : Json := Json.num (n : ℚ)

/-- The variables the merge block leaves behind for the button handler.
Values that may come either from the UI widgets or from the parsed model
output are kept as decoded JSON values (`none` is Python `None`). -/
structure UiState where
  genres : Json
  y_start : Option Json
  y_end : Option Json
  min_score : Option Json
  min_runtime : Option Json
  max_runtime : Option Json

/-- Lines 133-168 on the query-present path (`if query:` taken): the manual
widget values, then the four parsed-output merge steps.  `parsed` is the
dict returned by `gpt_parse_prompt`. -/
def uiMerge (manualGenres : List String) (decade : String) (criticsOnly : Bool)
    (parsed : Json) : UiState :=
  let genres0 := Json.arr (manualGenres.map Json.str)
  let ys0 := ((decadeRange decade).1).map jNum
  let ye0 := ((decadeRange decade).2).map jNum
  let minScore0 : Option Json := if criticsOnly then some (Json.num 7) else none
  -- line 160: `if not genres and parsed.get("genres"):`
  let genres1 :=
    if !(jTruthy genres0) && jTruthyO (pyGet parsed "genres") then
      (pyGet parsed "genres").getD Json.null
    else genres0
  -- line 162: `if decade == "Any" and parsed.get("year_start") and parsed.get("year_end"):`
  let useParsedYears :=
    (decade == "Any") && jTruthyO (pyGet parsed "year_start")
      && jTruthyO (pyGet parsed "year_end")
  let ys1 := if useParsedYears then pyGet parsed "year_start" else ys0
  let ye1 := if useParsedYears then pyGet parsed "year_end" else ye0
  -- line 165: `if not min_score and parsed.get("min_score"):`
  let minScore1 :=
    if !(jTruthyO minScore0) && jTruthyO (pyGet parsed "min_score") then
      pyGet parsed "min_score"
    else minScore0
  -- lines 167-168: unconditional
  { genres := genres1, y_start := ys1, y_end := ye1, min_score := minScore1,
    min_runtime := pyGet parsed "min_runtime", max_runtime := pyGet parsed "max_runtime" }

/-! ## Fallback Controller (button handler, lines 170-215) -/

/-- The five relaxation states of the fallback chain. -/
inductive FbState where
  | Full
  | DropScore
  | DropRuntime
  | DropCertification
  | SingleGenre
deriving DecidableEq, Repr

/-- Fallback 1 (lines 180-187): clear `min_score`. -/
def dropScoreF (f : FilterSet) : FilterSet := { f with min_score := none }

/-- Fallback 2 (lines 189-197): additionally clear both runtime bounds. -/
def dropRuntimeF (f : FilterSet) : FilterSet :=
  { dropScoreF f with min_runtime := none, max_runtime := none }

/-- Fallback 3 (lines 199-206): additionally clear `certification`. -/
def dropCertF (f : FilterSet) : FilterSet := { dropRuntimeF f with certification := none }

/-- Fallback 4 (lines 208-215): additionally keep only the first genre. -/
def singleGenreF (f : FilterSet) : FilterSet := { dropCertF f with genres := f.genres.take 1 }

/-- The argument tuple the handler passes to `discover_movies` in each state. -/
def argsFor (f : FilterSet) : FbState → FilterSet
  | FbState.Full => f
  | FbState.DropScore => dropScoreF f
  | FbState.DropRuntime => dropRuntimeF f
  | FbState.DropCertification => dropCertF f
  | FbState.SingleGenre => singleGenreF f

/-- Python truthiness of `parsed.get("certification")` (line 200 guard). -/
def certTruthy : Option String → Bool
  | none => false
  | some s => s != ""

/-- Lines 170-215: the sequential fallback chain over an abstract
`discover_movies` oracle.  `f` collects the arguments of the initial call
(lines 172-177); each later block is guarded by `if not movies` plus, for
fallback 3, `parsed.get("certification")` being truthy, and for fallback 4,
`genres` being non-empty.  The returned trace records, in order, one entry
per `discover_movies` call: the state and the exact arguments used. -/
def fallbackChain (disc : FilterSet → List Movie) (f : FilterSet) :
    List (FbState × FilterSet) × List Movie :=
  let m1 := disc f
  let t1 : List (FbState × FilterSet) := [(FbState.Full, f)]
  let s2 : List (FbState × FilterSet) × List Movie :=
    if m1.isEmpty then (t1 ++ [(FbState.DropScore, dropScoreF f)], disc (dropScoreF f))
    else (t1, m1)
  let s3 : List (FbState × FilterSet) × List Movie :=
    if s2.2.isEmpty then (s2.1 ++ [(FbState.DropRuntime, dropRuntimeF f)], disc (dropRuntimeF f))
    else s2
  let s4 : List (FbState × FilterSet) × List Movie :=
    if s3.2.isEmpty && certTruthy f.certification then
      (s3.1 ++ [(FbState.DropCertification, dropCertF f)], disc (dropCertF f))
    else s3
  let s5 : List (FbState × FilterSet) × List Movie :=
    if s4.2.isEmpty && !f.genres.isEmpty then
      (s4.1 ++ [(FbState.SingleGenre, singleGenreF f)], disc (singleGenreF f))
    else s4
  s5

/-- Python list of strings from a parsed JSON value, as consumed by
`discover_movies`'s genre loop (non-string entries are never catalog keys,
so they act like unmatched names; a non-list value is out of the claims'
scope and reads as empty). -/
def jsonToStrList : Json → List String
  | Json.arr xs => xs.filterMap (fun x => match x with | Json.str s => some s | _ => none)
  | _ => []

/-- An optional parsed JSON value as an optional string (the certification
argument). -/
def jsonToStrOpt : Option Json → Option String
  | some (Json.str s) => some s
  | _ => none

/-- An optional parsed JSON value as an optional integer (runtime bounds
and years; the model is instructed to return ints). -/
def jsonToIntOpt : Option Json → Option Int
  | some (Json.num q) => some q.num
  | _ => none

/-- A UI-or-parsed genres value as the list handed to `discover_movies`. -/
def genresToList : Json → List String
  | Json.arr xs => jsonToStrList (Json.arr xs)
  | _ => []

/-- Assemble the argument tuple of the initial `discover_movies` call
(lines 172-177) from the merge-block state and the parsed dict. -/
def mkFilterSet (st : UiState) (includeAdult : Bool) (certJ : Option Json) : FilterSet :=
  { genres := genresToList st.genres
    year_start := jsonToIntOpt st.y_start
    year_end := jsonToIntOpt st.y_end
    min_score := match st.min_score with | some (Json.num q) => some q | _ => none
    certification := jsonToStrOpt certJ
    min_runtime := jsonToIntOpt st.min_runtime
    max_runtime := jsonToIntOpt st.max_runtime
    include_adult := includeAdult }

/-- One full recommend-button interaction (lines 130-215), with the
language-model call abstracted as `parsedJson` and `discover_movies` as
`disc`.  `parsed` is assigned only inside `if query:` (line 156), yet
line 174 evaluates `parsed.get("certification")` unconditionally, so on the
no-free-text path the handler raises `NameError` before any discovery
call.  On the query path the handler returns the fallback chain's result. -/
def runInteraction (queryText : String) (parsedJson : Json) (manualGenres : List String)
    (decade : String) (criticsOnly includeAdult : Bool)
    (disc : FilterSet → List Movie) : Except String (List Movie) :=
  let parsedVar : Option Json := if queryText = "" then none else some parsedJson
  match parsedVar with
  | none => Except.error "NameError: name parsed is not defined"
  | some p =>
    let st := uiMerge manualGenres decade criticsOnly p
    Except.ok (fallbackChain disc (mkFilterSet st includeAdult (pyGet p "certification"))).2

/-! ## Shared helper lemmas -/

/-- `isOk` of an `Except` value. -/
def isOkE {α : Type} : Except String α → Bool
  | Except.ok _ => true
  | Except.error _ => false

theorem isPre_self (l : List String) : l.isPrefixOf l = true := by
  induction l with
  | nil => rfl
  | cons a t ih => simp [List.isPrefixOf, ih]

theorem isPre_take (n : Nat) (l : List String) : (l.take n).isPrefixOf l = true := by
  induction l generalizing n with
  | nil => cases n <;> rfl
  | cons a t ih =>
    cases n with
    | zero => rfl
    | succ m => simp [List.isPrefixOf, ih]

theorem lookup_swap_isSome (c : GenreCatalog) (i : Int) (g : String)
    (h : idToName c i = some g) : (nameToId c g).isSome = true := by
  induction c with
  | nil => simp [idToName, List.lookup] at h
  | cons p rest ih =>
    simp only [idToName, List.map_cons, List.lookup] at h
    simp only [nameToId, List.lookup]
    split at h
    · have hg : g = p.1 := (Option.some.inj h).symm
      subst hg
      simp
    · have hrec : (nameToId rest g).isSome = true := ih h
      split
      · rfl
      · exact hrec

theorem filterMap_filter_isSome {α β : Type} (f : α → Option β) (l : List α) :
    (l.filter (fun a => (f a).isSome)).filterMap f = l.filterMap f := by
  induction l with
  | nil => rfl
  | cons a t ih =>
    by_cases h : (f a).isSome = true
    · rcases Option.isSome_iff_exists.mp h with ⟨b, hb⟩
      simp [List.filter_cons, h, List.filterMap_cons, hb, ih]
    · have hn : f a = none := Option.not_isSome_iff_eq_none.mp (by simpa using h)
      simp [List.filter_cons, h, List.filterMap_cons, hn, ih]

theorem any_filter_eq {α : Type} (p keep : α → Bool) (l : List α)
    (h : ∀ a ∈ l, keep a = false → p a = false) :
    (l.filter keep).any p = l.any p := by
  induction l with
  | nil => rfl
  | cons a t ih =>
    have ht : ∀ x ∈ t, keep x = false → p x = false :=
      fun x hx => h x (List.mem_cons_of_mem a hx)
    by_cases hk : keep a = true
    · simp [List.filter_cons, hk, List.any_cons, ih ht]
    · have hk' : keep a = false := by simpa using hk
      have hp := h a (List.mem_cons_self a t) hk'
      simp [List.filter_cons, hk', List.any_cons, hp, ih ht]

/-! ## Claim C2: provider parameter serialization -/

/-- Claim C2 counterexample: with every filter unset, the engine still sends
the certification-related parameter `certification_country="US"` (line 90 puts
a constant `"US"` in `base_params`, and line 99 only strips `None` values), so
"a parameter is sent iff the corresponding filter field is set" fails. -/
theorem C2_counterexample :
    ({} : FilterSet).certification = none
      ∧ (buildParams (some "k") [] {}).certification_country = some "US" :=
  ⟨rfl, rfl⟩

/-- Claim C2 (amended): presence ⇔ set holds for `vote_average.gte`,
`with_runtime.gte`, `with_runtime.lte` and `certification.lte` (each sent with
exactly the filter's value iff the field is set); `with_genres` is sent iff at
least one requested genre resolves against the catalog (so it is absent for an
empty genre set); `include_adult` is always sent; `api_key` is sent iff the
key is configured; and `language`, `sort_by` and `certification_country="US"`
are constants that are always sent, the last even when certification is unset. -/
theorem C2_param_presence (apiKey : Option String) (c : GenreCatalog) (f : FilterSet) :
    (buildParams apiKey c f).vote_average_gte = f.min_score
      ∧ (buildParams apiKey c f).with_runtime_gte = f.min_runtime
      ∧ (buildParams apiKey c f).with_runtime_lte = f.max_runtime
      ∧ (buildParams apiKey c f).certification_lte = f.certification
      ∧ (buildParams apiKey c f).with_genres.isSome = !(resolveGenreIds c f.genres).isEmpty
      ∧ (buildParams apiKey c { f with genres := [] }).with_genres = none
      ∧ (buildParams apiKey c f).include_adult = some f.include_adult
      ∧ (buildParams apiKey c f).certification_country = some "US"
      ∧ (buildParams apiKey c f).api_key = apiKey
      ∧ (buildParams apiKey c f).language = some "en-US"
      ∧ (buildParams apiKey c f).sort_by = some "popularity.desc" := by
  refine ⟨rfl, rfl, rfl, rfl, ?_, rfl, rfl, rfl, rfl, rfl, rfl⟩
  simp only [buildParams]
  cases hg : (resolveGenreIds c f.genres).isEmpty <;> simp [hg]

/-! ## Claim C5: manual-filters-only interaction -/

/-- Claim C5 (code bug): with no free text (`query` empty), the script never
assigns `parsed` (line 158 is inside `if query:`), yet the button handler
evaluates `parsed.get("certification")` at line 174, so *every* manual-only
recommendation crashes with a `NameError` instead of producing a result list
or an empty-result notice — for any manual filter selections whatsoever. -/
theorem C5_manual_only_crash (parsedJson : Json) (manualGenres : List String)
    (decade : String) (criticsOnly includeAdult : Bool) (disc : FilterSet → List Movie) :
    runInteraction "" parsedJson manualGenres decade criticsOnly includeAdult disc =
      Except.error "NameError: name parsed is not defined" := rfl

/-! ## Claim C6: year post-filter -/

/-- The pure pass/fail outcome of the line-103 condition for a movie whose
date (if non-empty) parses: empty/missing dates fail, otherwise the parsed
year must lie in the inclusive range. -/
def inYearRange (a b : Int) (m : Movie) : Bool :=
  let rd := m.release_date.getD ""
  if rd = "" then false
  else
    match pyInt (rd.data.take 4) with
    | some y => decide (a ≤ y ∧ y ≤ b)
    | none => false

/-- A movie whose release date is empty/missing, or whose first four date
characters parse as an integer — i.e. one on which `int()` cannot raise. -/
def dateOk (m : Movie) : Bool :=
  (m.release_date.getD "" == "") || (pyInt ((m.release_date.getD "").data.take 4)).isSome

theorem movieYearCheck_ok (a b : Int) (m : Movie) (hm : dateOk m = true) :
    movieYearCheck a b m = Except.ok (inYearRange a b m) := by
  simp only [movieYearCheck, inYearRange]
  by_cases hrd : m.release_date.getD "" = ""
  · simp [hrd]
  · simp only [if_neg hrd]
    rcases hp : pyInt ((m.release_date.getD "").data.take 4) with _ | y
    · simp [dateOk, hrd, hp] at hm
    · simp [hp]

theorem filterE_yearCheck (a b : Int) (ms : List Movie)
    (h : ∀ m ∈ ms, dateOk m = true) :
    filterE (movieYearCheck a b) ms = Except.ok (ms.filter (inYearRange a b)) := by
  induction ms with
  | nil => rfl
  | cons m t ih =>
    have hm := h m (List.mem_cons_self m t)
    have ht : ∀ x ∈ t, dateOk x = true := fun x hx => h x (List.mem_cons_of_mem m hx)
    simp only [filterE, movieYearCheck_ok a b m hm, ih ht]
    cases hiy : inYearRange a b m <;>
      simp [Bind.bind, Except.bind, List.filter_cons, hiy] <;> rfl

/-- Claim C6 (amended): *when the year window actually applies* — both
bounds set and nonzero (line 102 tests Python truthiness, so a zero bound
also disables the filter) — and every movie's non-empty release date has a
parsable year, the filter keeps exactly the movies whose release year lies
in the inclusive range `[year_start, year_end]`, dropping movies with a
missing or empty date; with either bound unset (or zero) it keeps all
movies.  However a movie with a non-empty *unparsable* date makes `int()`
raise a `ValueError` that aborts the whole discover call instead of the
movie being dropped (see the counterexample). -/
theorem C6_year_filter (ys ye : Option Int) (ms : List Movie)
    (h : ∀ m ∈ ms, dateOk m = true) :
    yearFilter ys ye ms =
      Except.ok (if yTruthy ys && yTruthy ye then
        ms.filter (inYearRange (ys.getD 0) (ye.getD 0)) else ms) := by
  simp only [yearFilter]
  by_cases hy : (yTruthy ys && yTruthy ye) = true
  · simp only [hy, if_pos]
    exact filterE_yearCheck _ _ ms h
  · have hy' : (yTruthy ys && yTruthy ye) = false := by simpa using hy
    simp [hy']

/-- A movie with release date `"2015-06-01"` (passes a 2010-2019 window). -/
def movGood : Movie :=
  { id := 1, title := "Good", release_date := some "2015-06-01",
    vote_average := none, genre_ids := [], popularity := none }

/-- A movie with release date `"2021-01-01"` (outside a 2010-2019 window). -/
def movLate : Movie :=
  { id := 2, title := "Late", release_date := some "2021-01-01",
    vote_average := none, genre_ids := [], popularity := none }

/-- A movie with a missing release date. -/
def movNoDate : Movie :=
  { id := 3, title := "NoDate", release_date := none,
    vote_average := none, genre_ids := [], popularity := none }

/-- A movie with the unparsable release date `"unknown"`. -/
def movBadDate : Movie :=
  { id := 4, title := "Bad", release_date := some "unknown",
    vote_average := none, genre_ids := [], popularity := none }

/-- Claim C6 counterexample: the claim says a movie with an unparsable
release date is dropped *without raising*; in fact line 103's
`int(m["release_date"][:4])` raises `ValueError` on `"unknown"` and the
whole filter (hence the whole `discover_movies` call) aborts instead of
returning the empty list. -/
theorem C6_counterexample :
    yearFilter (some 2020) (some 2025) [movBadDate] = Except.error "ValueError" := rfl

/-- Witness for `C6_year_filter`: on `[movGood, movLate, movNoDate]` with the
window 2010-2019, the filter keeps exactly `movGood` (in-range), dropping the
2021 movie and the movie with a missing date. -/
theorem C6_year_filter_witness :
    (∀ m ∈ [movGood, movLate, movNoDate], dateOk m = true)
      ∧ yearFilter (some 2010) (some 2019) [movGood, movLate, movNoDate] =
          Except.ok (if yTruthy (some 2010) && yTruthy (some 2019) then
            [movGood, movLate, movNoDate].filter (inYearRange ((some (2010 : Int)).getD 0) ((some (2019 : Int)).getD 0))
          else [movGood, movLate, movNoDate]) :=
  ⟨by decide, C6_year_filter (some 2010) (some 2019) [movGood, movLate, movNoDate] (by decide)⟩

/-! ## Claim C3: bounded multi-page fetch -/

/-- The result list a successful page fetch contributed. -/
def pageOf (fetch : Nat → Except String (List Movie)) (p : Nat) : List Movie :=
  (fetch p).toOption.getD []

/-- A demo movie for the paging scenario. -/
def movPageOne : Movie :=
  { id := 10, title := "PageOne", release_date := none,
    vote_average := none, genre_ids := [], popularity := none }

/-- A fetch oracle: page 1 succeeds with one movie, page 2 raises, later
pages would succeed. -/
def fetchBoom : Nat → Except String (List Movie) :=
  fun p => if p = 1 then Except.ok [movPageOne]
    else if p = 2 then Except.error "boom" else Except.ok []

/-- Claim C3 counterexample: page 1 succeeds with one movie and page 2
raises; the claim says the discover call still returns the partial results
`[movPageOne]`, but the loop of lines 97-100 has no exception handler, so
the exception propagates and the whole call fails instead. -/
theorem C3_counterexample :
    fetchBoom 1 = Except.ok [movPageOne]
      ∧ fetchPages fetchBoom = Except.error "boom"
      ∧ fetchPages fetchBoom ≠ Except.ok [movPageOne] :=
  ⟨rfl, rfl, by rw [show fetchPages fetchBoom = Except.error "boom" from rfl]; simp⟩

/-- Claim C3 (amended): pages 1-5 are requested in order and, when every
page fetch succeeds, the call returns their concatenation in page order;
but an exception from a page fetch is *not* caught at the page level — it
propagates out of `discover_movies`, discarding the results already
collected from prior pages (the loop body of lines 97-100 contains no
`try`/`except`). -/
theorem C3_paging (fetch : Nat → Except String (List Movie)) :
    (([1, 2, 3, 4, 5].all (fun p => isOkE (fetch p))) = true →
      fetchPages fetch = Except.ok
        (pageOf fetch 1 ++ pageOf fetch 2 ++ pageOf fetch 3 ++ pageOf fetch 4 ++ pageOf fetch 5))
    ∧ (∀ k e, 1 ≤ k → k ≤ 5 → fetch k = Except.error e →
        ((List.range' 1 (k - 1)).all (fun p => isOkE (fetch p))) = true →
        fetchPages fetch = Except.error e) := by
  constructor
  · intro hall
    simp only [List.all_cons, List.all_nil, Bool.and_eq_true, and_true] at hall
    obtain ⟨h1, h2, h3, h4, h5⟩ := hall
    rcases hf1 : fetch 1 with e1 | v1; · rw [hf1] at h1; exact absurd h1 (by simp [isOkE])
    rcases hf2 : fetch 2 with e2 | v2; · rw [hf2] at h2; exact absurd h2 (by simp [isOkE])
    rcases hf3 : fetch 3 with e3 | v3; · rw [hf3] at h3; exact absurd h3 (by simp [isOkE])
    rcases hf4 : fetch 4 with e4 | v4; · rw [hf4] at h4; exact absurd h4 (by simp [isOkE])
    rcases hf5 : fetch 5 with e5 | v5; · rw [hf5] at h5; exact absurd h5 (by simp [isOkE])
    simp [fetchPages, pageOf, hf1, hf2, hf3, hf4, hf5, Except.map, Bind.bind, Except.bind,
      Except.toOption, pure, Except.pure]
  · intro k e hk1 hk5 hke hpre
    interval_cases k
    · simp [fetchPages, hke, Except.map, Bind.bind, Except.bind]
    · simp only [List.range', List.all_cons, List.all_nil, Bool.and_eq_true, and_true] at hpre
      rcases hf1 : fetch 1 with e1 | v1
      · rw [hf1] at hpre; exact absurd hpre (by simp [isOkE])
      · simp [fetchPages, hf1, hke, Except.map, Bind.bind, Except.bind]
    · simp only [List.range', List.all_cons, List.all_nil, Bool.and_eq_true, and_true] at hpre
      obtain ⟨h1, h2⟩ := hpre
      rcases hf1 : fetch 1 with e1 | v1; · rw [hf1] at h1; exact absurd h1 (by simp [isOkE])
      rcases hf2 : fetch 2 with e2 | v2; · rw [hf2] at h2; exact absurd h2 (by simp [isOkE])
      simp [fetchPages, hf1, hf2, hke, Except.map, Bind.bind, Except.bind]
    · simp only [List.range', List.all_cons, List.all_nil, Bool.and_eq_true, and_true] at hpre
      obtain ⟨h1, h2, h3⟩ := hpre
      rcases hf1 : fetch 1 with e1 | v1; · rw [hf1] at h1; exact absurd h1 (by simp [isOkE])
      rcases hf2 : fetch 2 with e2 | v2; · rw [hf2] at h2; exact absurd h2 (by simp [isOkE])
      rcases hf3 : fetch 3 with e3 | v3; · rw [hf3] at h3; exact absurd h3 (by simp [isOkE])
      simp [fetchPages, hf1, hf2, hf3, hke, Except.map, Bind.bind, Except.bind]
    · simp only [List.range', List.all_cons, List.all_nil, Bool.and_eq_true, and_true] at hpre
      obtain ⟨h1, h2, h3, h4⟩ := hpre
      rcases hf1 : fetch 1 with e1 | v1; · rw [hf1] at h1; exact absurd h1 (by simp [isOkE])
      rcases hf2 : fetch 2 with e2 | v2; · rw [hf2] at h2; exact absurd h2 (by simp [isOkE])
      rcases hf3 : fetch 3 with e3 | v3; · rw [hf3] at h3; exact absurd h3 (by simp [isOkE])
      rcases hf4 : fetch 4 with e4 | v4; · rw [hf4] at h4; exact absurd h4 (by simp [isOkE])
      simp [fetchPages, hf1, hf2, hf3, hf4, hke, Except.map, Bind.bind, Except.bind]

/-- Witness for `C3_paging` (second part): on the `fetchBoom` oracle, page 2
fails first, and the whole paged fetch returns that error. -/
theorem C3_paging_witness :
    (1 : Nat) ≤ 2 ∧ (2 : Nat) ≤ 5 ∧ fetchBoom 2 = Except.error "boom"
      ∧ ((List.range' 1 (2 - 1)).all (fun p => isOkE (fetchBoom p))) = true
      ∧ fetchPages fetchBoom = Except.error "boom" :=
  ⟨by decide, by decide, rfl, by decide,
    (C3_paging fetchBoom).2 2 "boom" (by decide) (by decide) rfl (by decide)⟩

/-! ## Claim C4: interpreter error tolerance -/

/-- A provider response body whose `content[0].text` is the plain refusal
`Sorry, I cannot help.`. -/
def sorryBody : String := "\x7b\"content\": [\x7b\"text\": \"Sorry, I cannot help.\"\x7d]\x7d"

/-- Claim C4 counterexample: the claim says a *provider error* also yields
the empty FilterSet, but `bedrock.invoke_model` (line 57) and
`json.loads(response["body"].read())` (line 63) sit outside the `try` of
lines 64-68, so a provider exception propagates to the caller uncaught. -/
theorem C4_counterexample :
    gpt_parse_prompt (Except.error "ProviderUnavailable") =
      Except.error "ProviderUnavailable" := rfl

/-- Claim C4 (amended): for every *well-formed provider response envelope*
(a body that `json.loads` accepts), `gpt_parse_prompt` never raises: every
failure inside the `try` (wrong envelope shape, non-string text, malformed
JSON in the model text) yields the empty dict `{}` — the empty FilterSet,
whose every field reads back unset — together with the `st.error` warning.
In particular the plain refusal `Sorry, I cannot help.` yields `({}, warning)`.
Provider errors and unparsable response bodies, however, propagate (see the
counterexample). -/
theorem C4_interpreter (body : String) (h : (jsonParse body).isSome = true) :
    isOkE (gpt_parse_prompt (Except.ok body)) = true
      ∧ gpt_parse_prompt (Except.ok sorryBody) = Except.ok (Json.obj [], true)
      ∧ (∀ k, pyGet (Json.obj []) k = none) := by
  refine ⟨?_, rfl, fun k => rfl⟩
  rcases hj : jsonParse body with _ | r
  · rw [hj] at h; exact absurd h (by simp)
  · simp only [gpt_parse_prompt, hj]
    cases extractFilters r <;> rfl

/-- Witness for `C4_interpreter`: the refusal-text envelope is a well-formed
body and the call returns without an exception. -/
theorem C4_interpreter_witness :
    (jsonParse sorryBody).isSome = true
      ∧ isOkE (gpt_parse_prompt (Except.ok sorryBody)) = true :=
  ⟨by decide, (C4_interpreter sorryBody (by decide)).1⟩

/-! ## Claim C8: code-block extraction -/

/-- The scenario text: a single ```` ```json ```` fenced block holding
`{"genres": ["Comedy"], "year_start": null}`. -/
def t8 : String := "```json\n\x7b\"genres\": [\"Comedy\"], \"year_start\": null\x7d\n```"

/-- The dict the scenario text decodes to. -/
def j8 : Json := Json.obj [("genres", Json.arr [Json.str "Comedy"]), ("year_start", Json.null)]

/-- A text with two ```` ```json ```` blocks (`true` then `false`). -/
def t2blocks : String := "```json\ntrue\n```x```json\nfalse\n```"

/-- A text whose only fenced block has no `json` tag. -/
def tPlainFence : String := "```\n3\n```"

/-- Claim C8 counterexample: the claim says the *first* fenced code block is
taken, and that *any* fenced block is extracted.  Line 66 splits on the
literal marker `` ```json `` and takes `[-1]`, so with two blocks the *last*
one (`false`) is parsed, not the first (`true`); and a fence without the
`json` tag is not extracted at all — the raw text (which does not parse) is
used instead. -/
theorem C8_counterexample :
    parseModelText t2blocks = some (Json.bool false)
      ∧ parseModelText t2blocks ≠ some (Json.bool true)
      ∧ extractJsonText tPlainFence = tPlainFence
      ∧ (parseModelText tPlainFence).isSome = false := by
  refine ⟨rfl, ?_, rfl, rfl⟩
  rw [show parseModelText t2blocks = some (Json.bool false) from rfl]
  simp

/-- Claim C8 (amended): when the text contains no `` ```json `` marker the
raw text is parsed as JSON (even if it contains a plain ``` fence); when it
does contain the marker, the content after the *last* marker, up to the next
```` ``` ````, is parsed.  On the scenario text the extraction yields exactly
`{"genres": ["Comedy"], "year_start": null}`: `genres` reads back as
`["Comedy"]` and every other field reads back unset (`null` maps to unset,
not zero). -/
theorem C8_extraction (text : String) (h : containsSeq mJson text.data = false) :
    extractJsonText text = text
      ∧ parseModelText t8 = some j8
      ∧ pyGet j8 "genres" = some (Json.arr [Json.str "Comedy"])
      ∧ (∀ k, k ≠ "genres" → pyGet j8 k = none) := by
  refine ⟨?_, rfl, rfl, ?_⟩
  · simp [extractJsonText, h]
  · intro k hk
    have h1 : (k == "genres") = false := beq_eq_false_iff_ne.mpr hk
    simp only [j8, pyGet, List.lookup, h1]
    cases h2 : (k == "year_start") <;> simp [h2]

/-- Witness for `C8_extraction`: a marker-free text is used raw. -/
theorem C8_extraction_witness :
    containsSeq mJson ("Sorry, I cannot help.").data = false
      ∧ extractJsonText "Sorry, I cannot help." = "Sorry, I cannot help." :=
  ⟨by decide, (C8_extraction "Sorry, I cannot help." (by decide)).1⟩

/-! ## Claim C9: stable descending ranking -/

theorem insertPop_perm (x : Movie) (l : List Movie) : (insertPop x l).Perm (x :: l) := by
  induction l with
  | nil => exact List.Perm.refl _
  | cons y ys ih =>
    simp only [insertPop]
    by_cases h : popKey y > popKey x
    · rw [if_pos h]
      exact (ih.cons y).trans (List.Perm.swap x y ys)
    · rw [if_neg h]

theorem insertPop_pairwise (x : Movie) (l : List Movie)
    (h : List.Pairwise (fun a b => popKey b ≤ popKey a) l) :
    List.Pairwise (fun a b => popKey b ≤ popKey a) (insertPop x l) := by
  induction l with
  | nil => simp [insertPop]
  | cons y ys ih =>
    rcases List.pairwise_cons.mp h with ⟨hy, hys⟩
    simp only [insertPop]
    by_cases hc : popKey y > popKey x
    · rw [if_pos hc]
      refine List.pairwise_cons.mpr ⟨?_, ih hys⟩
      intro z hz
      rcases List.mem_cons.mp ((insertPop_perm x ys).mem_iff.mp hz) with rfl | hz'
      · exact le_of_lt hc
      · exact hy z hz'
    · rw [if_neg hc]
      have hxy : popKey y ≤ popKey x := le_of_not_lt hc
      refine List.pairwise_cons.mpr ⟨?_, h⟩
      intro z hz
      rcases List.mem_cons.mp hz with rfl | hz'
      · exact hxy
      · exact le_trans (hy z hz') hxy

theorem insertPop_filter_key (x : Movie) (l : List Movie) (q : ℚ) :
    (insertPop x l).filter (fun m => popKey m == q) =
      (if popKey x == q then x :: l.filter (fun m => popKey m == q)
        else l.filter (fun m => popKey m == q)) := by
  induction l with
  | nil => cases hq : (popKey x == q) <;> simp [insertPop, List.filter_cons, hq]
  | cons y ys ih =>
    simp only [insertPop]
    by_cases hc : popKey y > popKey x
    · rw [if_pos hc]
      cases hq : (popKey x == q)
      · have hlhs : (y :: insertPop x ys).filter (fun m => popKey m == q) =
            (if popKey y == q then y :: (insertPop x ys).filter (fun m => popKey m == q)
              else (insertPop x ys).filter (fun m => popKey m == q)) := List.filter_cons
        rw [hlhs, ih, hq]
        cases hyq : (popKey y == q) <;> simp [List.filter_cons, hyq, hq]
      · have hxq : popKey x = q := beq_iff_eq.mp hq
        have hyq : (popKey y == q) = false := by
          refine beq_eq_false_iff_ne.mpr ?_
          rw [← hxq]
          exact ne_of_gt hc
        rw [List.filter_cons, hyq, ih, hq]
        simp [List.filter_cons, hyq]
    · rw [if_neg hc]
      cases hq : (popKey x == q) <;> simp [List.filter_cons, hq]

theorem sortPop_perm (l : List Movie) : (sortByPopularity l).Perm l := by
  induction l with
  | nil => exact List.Perm.nil
  | cons x t ih => exact (insertPop_perm x _).trans (ih.cons x)

theorem sortPop_sorted (l : List Movie) :
    List.Pairwise (fun a b => popKey b ≤ popKey a) (sortByPopularity l) := by
  induction l with
  | nil => exact List.Pairwise.nil
  | cons x t ih => exact insertPop_pairwise x _ ih

theorem sortPop_filter_key (l : List Movie) (q : ℚ) :
    (sortByPopularity l).filter (fun m => popKey m == q) =
      l.filter (fun m => popKey m == q) := by
  induction l with
  | nil => rfl
  | cons x t ih =>
    have hstep : sortByPopularity (x :: t) = insertPop x (sortByPopularity t) := rfl
    rw [hstep, insertPop_filter_key, ih]
    cases hq : (popKey x == q) <;> simp [List.filter_cons, hq]

/-- Movies of the scenario, with popularities 3.2, 9.1, 9.1, 1.0 in provider
order (ids distinguish the two 9.1 movies). -/
def movP1 : Movie :=
  { id := 1, title := "P1", release_date := none, vote_average := none,
    genre_ids := [], popularity := some 3.2 }

def movP2 : Movie :=
  { id := 2, title := "P2", release_date := none, vote_average := none,
    genre_ids := [], popularity := some 9.1 }

def movP3 : Movie :=
  { id := 3, title := "P3", release_date := none, vote_average := none,
    genre_ids := [], popularity := some 9.1 }

def movP4 : Movie :=
  { id := 4, title := "P4", release_date := none, vote_average := none,
    genre_ids := [], popularity := some 1.0 }

/-- Claim C9 (confirmed): line 112's `results.sort(key=..., reverse=True)` is
a stable descending sort by popularity — the output is a permutation of the
input, sorted by non-increasing key; for every key value the equal-key movies
appear in exactly their provider order (filter-stability); a movie with no
popularity field sorts with key 0; and on the scenario popularities
[3.2, 9.1, 9.1, 1.0] the output is [9.1(first), 9.1(second), 3.2, 1.0]. -/
theorem C9_stable_ranking :
    (∀ l : List Movie, (sortByPopularity l).Perm l)
      ∧ (∀ l : List Movie,
          List.Pairwise (fun a b => popKey b ≤ popKey a) (sortByPopularity l))
      ∧ (∀ (l : List Movie) (q : ℚ),
          (sortByPopularity l).filter (fun m => popKey m == q) =
            l.filter (fun m => popKey m == q))
      ∧ (∀ m : Movie, popKey { m with popularity := none } = 0)
      ∧ sortByPopularity [movP1, movP2, movP3, movP4] = [movP2, movP3, movP1, movP4] := by
  refine ⟨sortPop_perm, sortPop_sorted, sortPop_filter_key, fun m => rfl, ?_⟩
  norm_num [sortByPopularity, insertPop, popKey, movP1, movP2, movP3, movP4]

/-! ## Claim C10: merge precedence -/

/-- A parsed dict for the merge-precedence witness. -/
def pDemo : Json := Json.obj [("min_runtime", Json.num 80), ("genres", Json.arr [Json.str "Horror"])]

/-- Claim C10 (confirmed): in the merge block of lines 156-168, manual UI
selections win over interpreter output — non-empty manual genres are kept
unchanged; any decade other than "Any" keeps the decade-table year pair;
critics-only keeps the manual 7.0 score; while `min_runtime`/`max_runtime`
are always taken from the parsed output (there is no manual runtime input). -/
theorem C10_merge_precedence (mg : List String) (decade : String) (co : Bool) (parsed : Json) :
    (mg ≠ [] → (uiMerge mg decade co parsed).genres = Json.arr (mg.map Json.str))
      ∧ (decade ≠ "Any" →
          (uiMerge mg decade co parsed).y_start = ((decadeRange decade).1).map jNum
            ∧ (uiMerge mg decade co parsed).y_end = ((decadeRange decade).2).map jNum)
      ∧ (co = true → (uiMerge mg decade co parsed).min_score = some (Json.num 7))
      ∧ (uiMerge mg decade co parsed).min_runtime = pyGet parsed "min_runtime"
      ∧ (uiMerge mg decade co parsed).max_runtime = pyGet parsed "max_runtime" := by
  refine ⟨?_, ?_, ?_, rfl, rfl⟩
  · intro hmg
    rcases mg with _ | ⟨g, gs⟩
    · exact absurd rfl hmg
    · simp [uiMerge, jTruthy]
  · intro hd
    have hda : (decade == "Any") = false := beq_eq_false_iff_ne.mpr hd
    constructor <;> simp [uiMerge, hda]
  · intro hco
    subst hco
    simp [uiMerge, jTruthyO, jTruthy]

/-- Witness for `C10_merge_precedence`: manual genre ["Drama"], decade
"1990s", critics-only on, and a parsed dict carrying genres and a runtime. -/
theorem C10_merge_precedence_witness :
    (["Drama"] ≠ ([] : List String))
      ∧ (uiMerge ["Drama"] "1990s" true pDemo).genres = Json.arr [Json.str "Drama"]
      ∧ ("1990s" ≠ "Any")
      ∧ (uiMerge ["Drama"] "1990s" true pDemo).y_start = some (jNum 1990)
      ∧ (uiMerge ["Drama"] "1990s" true pDemo).min_score = some (Json.num 7)
      ∧ (uiMerge ["Drama"] "1990s" true pDemo).min_runtime = some (Json.num 80) :=
  ⟨by decide, (C10_merge_precedence ["Drama"] "1990s" true pDemo).1 (by decide),
    by decide,
    by rw [((C10_merge_precedence ["Drama"] "1990s" true pDemo).2.1 (by decide)).1]; rfl,
    (C10_merge_precedence ["Drama"] "1990s" true pDemo).2.2.1 rfl,
    by rw [(C10_merge_precedence ["Drama"] "1990s" true pDemo).2.2.2.1]; rfl⟩

/-! ## Claim C7: unmatched genre names -/

theorem resolve_filter_eq (c : GenreCatalog) (gs : List String) :
    resolveGenreIds c (gs.filter (fun g => (nameToId c g).isSome)) = resolveGenreIds c gs :=
  filterMap_filter_isSome (fun g => nameToId c g) gs

theorem unmatched_not_contained (c : GenreCatalog) (m : Movie) (g : String)
    (h : (nameToId c g).isSome = false) :
    (movieGenreNames c m).contains (some g) = false := by
  cases hc : (movieGenreNames c m).contains (some g)
  · rfl
  · exfalso
    have hmem : some g ∈ movieGenreNames c m := by
      have := List.contains_iff_exists_mem_beq.mp hc
      rcases this with ⟨o, ho, hbeq⟩
      rcases o with _ | s
      · simp at hbeq
      · have hsg : g = s := by simpa using hbeq
        rw [hsg]
        exact ho
    rcases List.mem_map.mp hmem with ⟨i, _, hgi⟩
    rw [lookup_swap_isSome c i g hgi] at h
    exact Bool.true_eq_false.mp h

theorem genreFilter_unmatched (c : GenreCatalog) (gs : List String) (ms : List Movie)
    (h : gs.filter (fun g => (nameToId c g).isSome) ≠ []) :
    genreFilter c gs ms = genreFilter c (gs.filter (fun g => (nameToId c g).isSome)) ms := by
  have hgs : gs ≠ [] := by
    intro he
    subst he
    simp at h
  have hgsE : gs.isEmpty = false := by
    cases gs
    · exact absurd rfl hgs
    · rfl
  have hgs'E : (gs.filter (fun g => (nameToId c g).isSome)).isEmpty = false := by
    cases hf : gs.filter (fun g => (nameToId c g).isSome)
    · exact absurd hf h
    · rfl
  simp only [genreFilter, hgsE, hgs'E, Bool.false_eq_true, if_false]
  apply List.filter_congr
  intro m _
  have := any_filter_eq (fun g => (movieGenreNames c m).contains (some g))
    (fun g => (nameToId c g).isSome) gs
    (fun g _ hg => unmatched_not_contained c m g hg)
  exact this.symm

/-- Claim C7 (amended): genre names with no catalog match are dropped when
building the provider parameters, and — *provided at least one requested
name matches the catalog* — discover returns the same ResultList whether or
not the unmatched names are removed.  When *every* requested name is
unmatched, however, the line 105-110 post-filter (whose guard is the raw
`genres` list, not the resolved ids) discards every movie, so the unmatched
names do impose a constraint (see the counterexample). -/
theorem C7_unmatched_genres (apiKey : Option String) (c : GenreCatalog)
    (fetch : BaseParams → Nat → Except String (List Movie)) (f : FilterSet)
    (h : f.genres.filter (fun g => (nameToId c g).isSome) ≠ []) :
    discover_movies apiKey c fetch f =
      discover_movies apiKey c fetch
        { f with genres := f.genres.filter (fun g => (nameToId c g).isSome) } := by
  have hparams :
      buildParams apiKey c { f with genres := f.genres.filter (fun g => (nameToId c g).isSome) } =
        buildParams apiKey c f := by
    simp [buildParams, resolve_filter_eq]
  simp only [discover_movies, hparams]
  rcases hfp : fetchPages (fetch (buildParams apiKey c f)) with e | fetched
  · rfl
  · simp only [Bind.bind, Except.bind]
    rcases hyf : yearFilter f.year_start f.year_end fetched with e | ay
    · rfl
    · simp only [genreFilter_unmatched c f.genres ay h]

/-- A one-genre catalog for the C7 scenario. -/
def cAct : GenreCatalog := [("Action", 28)]

/-- A movie carrying the Action genre id. -/
def mov28 : Movie :=
  { id := 201, title := "ActionMovie", release_date := none, vote_average := none,
    genre_ids := [28], popularity := some 5 }

/-- A fetch oracle returning `mov28` on page 1 and nothing afterwards. -/
def fetchOne : BaseParams → Nat → Except String (List Movie) :=
  fun _ p => if p = 1 then Except.ok [mov28] else Except.ok []

/-- Claim C7 counterexample: with the genre list `["Zzz"]` consisting only of
an unmatched name, discover returns the empty list (the post-filter guard
`if genres:` fires and no movie can match "Zzz"), while the same query with
the unmatched name removed returns the fetched movie — so discover on a list
containing unmatched names is *not* always equal to discover with those
names removed, and an all-unmatched list does impose a constraint. -/
theorem C7_counterexample :
    discover_movies (some "k") cAct fetchOne { genres := ["Zzz"] } = Except.ok []
      ∧ discover_movies (some "k") cAct fetchOne { genres := [] } = Except.ok [mov28] :=
  ⟨rfl, rfl⟩

/-- Witness for `C7_unmatched_genres`: `["Action", "Zzz"]` has the matched
name "Action", so dropping "Zzz" leaves the result unchanged. -/
theorem C7_unmatched_genres_witness :
    (["Action", "Zzz"].filter (fun g => (nameToId cAct g).isSome) ≠ [])
      ∧ discover_movies (some "k") cAct fetchOne { genres := ["Action", "Zzz"] } =
          discover_movies (some "k") cAct fetchOne
            { ({ genres := ["Action", "Zzz"] } : FilterSet) with
                genres := ["Action", "Zzz"].filter (fun g => (nameToId cAct g).isSome) } :=
  ⟨by decide,
    C7_unmatched_genres (some "k") cAct fetchOne { genres := ["Action", "Zzz"] } (by decide)⟩

/-! ## Claim C1: fallback state machine -/

/-- Boolean implication (used to state "a filter cleared earlier is never
restored later"). -/
def impB (x y : Bool) : Bool := !x || y

/-- `b` only relaxes `a`: every optional filter that is cleared (`none`) in
`a` stays cleared in `b`, `b`'s genre list is a prefix of `a`'s, and the
non-relaxable fields (years, adult flag) are unchanged. -/
def relaxB (a b : FilterSet) : Bool :=
  impB a.min_score.isNone b.min_score.isNone &&
  impB a.min_runtime.isNone b.min_runtime.isNone &&
  impB a.max_runtime.isNone b.max_runtime.isNone &&
  impB a.certification.isNone b.certification.isNone &&
  b.genres.isPrefixOf a.genres &&
  (b.year_start == a.year_start) && (b.year_end == a.year_end) &&
  (b.include_adult == a.include_adult)

theorem impB_self (x : Bool) : impB x x = true := by cases x <;> rfl

theorem impB_true (x : Bool) : impB x true = true := by cases x <;> rfl

theorem relaxAll (f : FilterSet) :
    List.Pairwise (fun a b => relaxB a b = true)
      [f, dropScoreF f, dropRuntimeF f, dropCertF f, singleGenreF f] := by
  have h12 : relaxB f (dropScoreF f) = true := by
    simp [relaxB, dropScoreF, impB_self, impB_true, isPre_self]
  have h13 : relaxB f (dropRuntimeF f) = true := by
    simp [relaxB, dropScoreF, dropRuntimeF, impB_self, impB_true, isPre_self]
  have h14 : relaxB f (dropCertF f) = true := by
    simp [relaxB, dropScoreF, dropRuntimeF, dropCertF, impB_self, impB_true, isPre_self]
  have h15 : relaxB f (singleGenreF f) = true := by
    simp [relaxB, dropScoreF, dropRuntimeF, dropCertF, singleGenreF,
      impB_self, impB_true, isPre_take]
  have h23 : relaxB (dropScoreF f) (dropRuntimeF f) = true := by
    simp [relaxB, dropScoreF, dropRuntimeF, impB_self, impB_true, isPre_self]
  have h24 : relaxB (dropScoreF f) (dropCertF f) = true := by
    simp [relaxB, dropScoreF, dropRuntimeF, dropCertF, impB_self, impB_true, isPre_self]
  have h25 : relaxB (dropScoreF f) (singleGenreF f) = true := by
    simp [relaxB, dropScoreF, dropRuntimeF, dropCertF, singleGenreF,
      impB_self, impB_true, isPre_take]
  have h34 : relaxB (dropRuntimeF f) (dropCertF f) = true := by
    simp [relaxB, dropScoreF, dropRuntimeF, dropCertF, impB_self, impB_true, isPre_self]
  have h35 : relaxB (dropRuntimeF f) (singleGenreF f) = true := by
    simp [relaxB, dropScoreF, dropRuntimeF, dropCertF, singleGenreF,
      impB_self, impB_true, isPre_take]
  have h45 : relaxB (dropCertF f) (singleGenreF f) = true := by
    simp [relaxB, dropScoreF, dropRuntimeF, dropCertF, singleGenreF,
      impB_self, impB_true, isPre_take]
  refine List.pairwise_cons.mpr ⟨?_, List.pairwise_cons.mpr ⟨?_,
    List.pairwise_cons.mpr ⟨?_, List.pairwise_cons.mpr ⟨?_,
      List.pairwise_cons.mpr ⟨fun b hb => absurd hb (List.not_mem_nil b), List.Pairwise.nil⟩⟩⟩⟩⟩
  · intro b hb
    rcases List.mem_cons.mp hb with rfl | hb
    · exact h12
    rcases List.mem_cons.mp hb with rfl | hb
    · exact h13
    rcases List.mem_cons.mp hb with rfl | hb
    · exact h14
    rcases List.mem_cons.mp hb with rfl | hb
    · exact h15
    exact absurd hb (List.not_mem_nil b)
  · intro b hb
    rcases List.mem_cons.mp hb with rfl | hb
    · exact h23
    rcases List.mem_cons.mp hb with rfl | hb
    · exact h24
    rcases List.mem_cons.mp hb with rfl | hb
    · exact h25
    exact absurd hb (List.not_mem_nil b)
  · intro b hb
    rcases List.mem_cons.mp hb with rfl | hb
    · exact h34
    rcases List.mem_cons.mp hb with rfl | hb
    · exact h35
    exact absurd hb (List.not_mem_nil b)
  · intro b hb
    rcases List.mem_cons.mp hb with rfl | hb
    · exact h45
    exact absurd hb (List.not_mem_nil b)

/-- The sequence of (state, arguments) pairs of the `discover_movies` calls
a button press performs. -/
def fbTrace (disc : FilterSet → List Movie) (f : FilterSet) : List (FbState × FilterSet) :=
  (fallbackChain disc f).1

/-- The visited states, in visit order. -/
def fbStates (disc : FilterSet → List Movie) (f : FilterSet) : List FbState :=
  (fbTrace disc f).map Prod.fst

/-- The movie list the chain leaves in `movies`. -/
def fbRes (disc : FilterSet → List Movie) (f : FilterSet) : List Movie :=
  (fallbackChain disc f).2

theorem fb_full (disc : FilterSet → List Movie) (f : FilterSet)
    (h1 : (disc f).isEmpty = false) :
    fallbackChain disc f = ([(FbState.Full, f)], disc f) := by
  simp [fallbackChain, h1]

theorem fb_score (disc : FilterSet → List Movie) (f : FilterSet)
    (h1 : (disc f).isEmpty = true) (h2 : (disc (dropScoreF f)).isEmpty = false) :
    fallbackChain disc f =
      ([(FbState.Full, f), (FbState.DropScore, dropScoreF f)], disc (dropScoreF f)) := by
  simp [fallbackChain, h1, h2]

theorem fb_runtime (disc : FilterSet → List Movie) (f : FilterSet)
    (h1 : (disc f).isEmpty = true) (h2 : (disc (dropScoreF f)).isEmpty = true)
    (h3 : (disc (dropRuntimeF f)).isEmpty = false) :
    fallbackChain disc f =
      ([(FbState.Full, f), (FbState.DropScore, dropScoreF f),
        (FbState.DropRuntime, dropRuntimeF f)], disc (dropRuntimeF f)) := by
  simp [fallbackChain, h1, h2, h3]

theorem fb_cert (disc : FilterSet → List Movie) (f : FilterSet)
    (h1 : (disc f).isEmpty = true) (h2 : (disc (dropScoreF f)).isEmpty = true)
    (h3 : (disc (dropRuntimeF f)).isEmpty = true)
    (hc : certTruthy f.certification = true)
    (h4 : (disc (dropCertF f)).isEmpty = false) :
    fallbackChain disc f =
      ([(FbState.Full, f), (FbState.DropScore, dropScoreF f),
        (FbState.DropRuntime, dropRuntimeF f),
        (FbState.DropCertification, dropCertF f)], disc (dropCertF f)) := by
  simp [fallbackChain, h1, h2, h3, hc, h4]

theorem fb_cert_sg (disc : FilterSet → List Movie) (f : FilterSet)
    (h1 : (disc f).isEmpty = true) (h2 : (disc (dropScoreF f)).isEmpty = true)
    (h3 : (disc (dropRuntimeF f)).isEmpty = true)
    (hc : certTruthy f.certification = true)
    (h4 : (disc (dropCertF f)).isEmpty = true) (hg : f.genres.isEmpty = false) :
    fallbackChain disc f =
      ([(FbState.Full, f), (FbState.DropScore, dropScoreF f),
        (FbState.DropRuntime, dropRuntimeF f),
        (FbState.DropCertification, dropCertF f),
        (FbState.SingleGenre, singleGenreF f)], disc (singleGenreF f)) := by
  simp [fallbackChain, h1, h2, h3, hc, h4, hg]

theorem fb_cert_stop (disc : FilterSet → List Movie) (f : FilterSet)
    (h1 : (disc f).isEmpty = true) (h2 : (disc (dropScoreF f)).isEmpty = true)
    (h3 : (disc (dropRuntimeF f)).isEmpty = true)
    (hc : certTruthy f.certification = true)
    (h4 : (disc (dropCertF f)).isEmpty = true) (hg : f.genres.isEmpty = true) :
    fallbackChain disc f =
      ([(FbState.Full, f), (FbState.DropScore, dropScoreF f),
        (FbState.DropRuntime, dropRuntimeF f),
        (FbState.DropCertification, dropCertF f)], disc (dropCertF f)) := by
  simp [fallbackChain, h1, h2, h3, hc, h4, hg]

theorem fb_nocert_stop (disc : FilterSet → List Movie) (f : FilterSet)
    (h1 : (disc f).isEmpty = true) (h2 : (disc (dropScoreF f)).isEmpty = true)
    (h3 : (disc (dropRuntimeF f)).isEmpty = true)
    (hc : certTruthy f.certification = false) (hg : f.genres.isEmpty = true) :
    fallbackChain disc f =
      ([(FbState.Full, f), (FbState.DropScore, dropScoreF f),
        (FbState.DropRuntime, dropRuntimeF f)], disc (dropRuntimeF f)) := by
  simp [fallbackChain, h1, h2, h3, hc, hg]

theorem fb_nocert_sg (disc : FilterSet → List Movie) (f : FilterSet)
    (h1 : (disc f).isEmpty = true) (h2 : (disc (dropScoreF f)).isEmpty = true)
    (h3 : (disc (dropRuntimeF f)).isEmpty = true)
    (hc : certTruthy f.certification = false) (hg : f.genres.isEmpty = false) :
    fallbackChain disc f =
      ([(FbState.Full, f), (FbState.DropScore, dropScoreF f),
        (FbState.DropRuntime, dropRuntimeF f),
        (FbState.SingleGenre, singleGenreF f)], disc (singleGenreF f)) := by
  simp [fallbackChain, h1, h2, h3, hc, hg]

/-- Claim C1 (confirmed): for every discover oracle and initial filter set,
the button handler's fallback chain (i) visits its states in a subsequence of
the fixed order Full, DropScore, DropRuntime, DropCertification, SingleGenre
(so never more than one call per state, strictly in order); (ii) each visited
state performs its single discover call with exactly the accumulated-relaxation
arguments for that state; (iii) along the successive calls relaxations only
accumulate — a filter cleared earlier is never restored, genres only shrink,
the non-relaxable fields never change; (iv) Full is always visited, and each
later state is entered iff every earlier call came back empty (with
DropCertification additionally requiring a truthy certification — it is
skipped when certification was unset — and SingleGenre additionally requiring
a non-empty genre list, SingleGenre being reachable with DropCertification
skipped); and (v) the returned list is exactly what the last visited state's
discover call yielded. -/
theorem C1_fallback_state_machine (disc : FilterSet → List Movie) (f : FilterSet) :
    List.Sublist (fbStates disc f)
        [FbState.Full, FbState.DropScore, FbState.DropRuntime,
          FbState.DropCertification, FbState.SingleGenre]
      ∧ fbTrace disc f = (fbStates disc f).map (fun s => (s, argsFor f s))
      ∧ List.Pairwise (fun a b => relaxB a b = true) ((fbTrace disc f).map Prod.snd)
      ∧ FbState.Full ∈ fbStates disc f
      ∧ (FbState.DropScore ∈ fbStates disc f ↔ (disc f).isEmpty = true)
      ∧ (FbState.DropRuntime ∈ fbStates disc f ↔
          ((disc f).isEmpty && (disc (dropScoreF f)).isEmpty) = true)
      ∧ (FbState.DropCertification ∈ fbStates disc f ↔
          ((disc f).isEmpty && (disc (dropScoreF f)).isEmpty &&
            (disc (dropRuntimeF f)).isEmpty && certTruthy f.certification) = true)
      ∧ (FbState.SingleGenre ∈ fbStates disc f ↔
          ((disc f).isEmpty && (disc (dropScoreF f)).isEmpty &&
            (disc (dropRuntimeF f)).isEmpty &&
            (!certTruthy f.certification || (disc (dropCertF f)).isEmpty) &&
            !f.genres.isEmpty) = true)
      ∧ (fbTrace disc f).getLast?.map (fun p => disc p.2) = some (fbRes disc f) := by
  cases h1 : (disc f).isEmpty with
  | false =>
    simp only [fbTrace, fbStates, fbRes, fb_full disc f h1, List.map_cons, List.map_nil]
    refine ⟨by decide, rfl, ?_, by simp, by simp [h1], by simp [h1], by simp [h1],
      by simp [h1], rfl⟩
    exact (relaxAll f).sublist (List.Sublist.cons₂ _ (List.nil_sublist _))
  | true =>
    cases h2 : (disc (dropScoreF f)).isEmpty with
    | false =>
      simp only [fbTrace, fbStates, fbRes, fb_score disc f h1 h2, List.map_cons, List.map_nil]
      refine ⟨by decide, rfl, ?_, by simp, by simp [h1], by simp [h1, h2], by simp [h1, h2],
        by simp [h1, h2], rfl⟩
      exact (relaxAll f).sublist
        (List.Sublist.cons₂ _ (List.Sublist.cons₂ _ (List.nil_sublist _)))
    | true =>
      cases h3 : (disc (dropRuntimeF f)).isEmpty with
      | false =>
        simp only [fbTrace, fbStates, fbRes, fb_runtime disc f h1 h2 h3,
          List.map_cons, List.map_nil]
        refine ⟨by decide, rfl, ?_, by simp, by simp [h1], by simp [h1, h2],
          by simp [h1, h2, h3], by simp [h1, h2, h3], rfl⟩
        exact (relaxAll f).sublist
          (List.Sublist.cons₂ _ (List.Sublist.cons₂ _ (List.Sublist.cons₂ _ (List.nil_sublist _))))
      | true =>
        cases hc : certTruthy f.certification with
        | true =>
          cases h4 : (disc (dropCertF f)).isEmpty with
          | false =>
            simp only [fbTrace, fbStates, fbRes, fb_cert disc f h1 h2 h3 hc h4,
              List.map_cons, List.map_nil]
            refine ⟨by decide, rfl, ?_, by simp, by simp [h1], by simp [h1, h2],
              by simp [h1, h2, h3, hc], by simp [h1, h2, h3, hc, h4], rfl⟩
            exact (relaxAll f).sublist
              (List.Sublist.cons₂ _ (List.Sublist.cons₂ _ (List.Sublist.cons₂ _
                (List.Sublist.cons₂ _ (List.nil_sublist _)))))
          | true =>
            cases hg : f.genres.isEmpty with
            | false =>
              simp only [fbTrace, fbStates, fbRes, fb_cert_sg disc f h1 h2 h3 hc h4 hg,
                List.map_cons, List.map_nil]
              refine ⟨by decide, rfl, ?_, by simp, by simp [h1], by simp [h1, h2],
                by simp [h1, h2, h3, hc], by simp [h1, h2, h3, hc, h4, hg], rfl⟩
              exact (relaxAll f).sublist (List.Sublist.refl _)
            | true =>
              simp only [fbTrace, fbStates, fbRes, fb_cert_stop disc f h1 h2 h3 hc h4 hg,
                List.map_cons, List.map_nil]
              refine ⟨by decide, rfl, ?_, by simp, by simp [h1], by simp [h1, h2],
                by simp [h1, h2, h3, hc], by simp [h1, h2, h3, hc, h4, hg], rfl⟩
              exact (relaxAll f).sublist
                (List.Sublist.cons₂ _ (List.Sublist.cons₂ _ (List.Sublist.cons₂ _
                  (List.Sublist.cons₂ _ (List.nil_sublist _)))))
        | false =>
          cases hg : f.genres.isEmpty with
          | false =>
            simp only [fbTrace, fbStates, fbRes, fb_nocert_sg disc f h1 h2 h3 hc hg,
              List.map_cons, List.map_nil]
            refine ⟨by decide, rfl, ?_, by simp, by simp [h1], by simp [h1, h2],
              by simp [h1, h2, h3, hc], by simp [h1, h2, h3, hc, hg], rfl⟩
            exact (relaxAll f).sublist
              (List.Sublist.cons₂ _ (List.Sublist.cons₂ _ (List.Sublist.cons₂ _
                (List.Sublist.cons _ (List.Sublist.cons₂ _ (List.nil_sublist _))))))
          | true =>
            simp only [fbTrace, fbStates, fbRes, fb_nocert_stop disc f h1 h2 h3 hc hg,
              List.map_cons, List.map_nil]
            refine ⟨by decide, rfl, ?_, by simp, by simp [h1], by simp [h1, h2],
              by simp [h1, h2, h3, hc], by simp [h1, h2, h3, hc, hg], rfl⟩
            exact (relaxAll f).sublist
              (List.Sublist.cons₂ _ (List.Sublist.cons₂ _ (List.Sublist.cons₂ _ (List.nil_sublist _))))
